import Mathlib

/-!
Verification of the fleur application catalog (`src/lib/data.ts`).

The repository's only source file declares a literal list `apps` of
application descriptors. The data model (`App`, `EnvVarSpec`, the icon
shape) and every entry of the catalog are embedded below field by field
from that file. The catalog operations (`listAll`, `findByName`,
`requiredEnvVars`) and the load-time validation contract are not present
in the source; they are modelled from the specification, as marked on
each definition.
-/

/-- One environment-variable declaration of an app (`envVars` element in
`data.ts`). -/
structure EnvVarSpec where
  name : String
  label : String
  description : String
deriving DecidableEq

/-- The `light`/`dark` pair of icon image paths (`icon.url` in `data.ts`). -/
structure IconUrl where
  light : String
  dark : String
deriving DecidableEq

/-- The icon value: a discriminator `type` (always the literal `"url"` in the
source) and the themed path pair. -/
structure Icon where
  type : String
  url : IconUrl
deriving DecidableEq

/-- One catalog entry, with the exact fields of the `App` records in
`data.ts`; the optional `envVars` field becomes an `Option`. -/
structure App where
  name : String
  description : String
  stars : Nat
  icon : Icon
  category : String
  price : String
  developer : String
  envVars : Option (List EnvVarSpec) := none
deriving DecidableEq

/-- The `"Browser"` entry of `apps` in `data.ts`. -/
def browser : App :=
  { name := "Browser"
    description := "Web browser"
    stars := 1000
    icon := { type := "url"
              url := { light := "/servers/browser.svg"
                       dark := "/servers/browser.svg" } }
    category := "Utilities"
    price := "Get"
    developer := "Google LLC" }

/-- The `"Hacker News"` entry of `apps` in `data.ts`. -/
def hackerNews : App :=
  { name := "Hacker News"
    description := "Hacker News"
    stars := 1000
    icon := { type := "url"
              url := { light := "/servers/yc.svg"
                       dark := "/servers/yc.svg" } }
    category := "Social"
    price := "Get"
    developer := "Y Combinator" }

/-- The `"June"` entry of `apps` in `data.ts`. -/
def june : App :=
  { name := "June"
    description := "June"
    stars := 1000
    icon := { type := "url"
              url := { light := "/servers/june.svg"
                       dark := "/servers/june.svg" } }
    category := "Analytics"
    price := "Get"
    developer := "June"
    envVars := some
      [ { name := "JUNE_API_URL"
          label := "June API URL"
          description := "June API URL" },
        { name := "JUNE_API_KEY"
          label := "June API Key"
          description := "June API Key" } ] }

/-- The `"Linear"` entry of `apps` in `data.ts`. -/
def linear : App :=
  { name := "Linear"
    description := "Linear"
    stars := 1000
    icon := { type := "url"
              url := { light := "/servers/linear-dark.svg"
                       dark := "/servers/linear-light.svg" } }
    category := "Productivity"
    price := "Get"
    developer := "Linear"
    envVars := some
      [ { name := "LINEAR_API_KEY"
          label := "Linear API Key"
          description := "Your Linear API key for authentication" } ] }

/-- The `"Gmail"` entry of `apps` in `data.ts`. -/
def gmail : App :=
  { name := "Gmail"
    description := "Email and messaging platform"
    stars := 1000
    icon := { type := "url"
              url := { light := "/servers/gmail.svg"
                       dark := "/servers/gmail.svg" } }
    category := "Productivity"
    price := "Free"
    developer := "Google LLC" }

/-- The `"Google Calendar"` entry of `apps` in `data.ts`. -/
def googleCalendar : App :=
  { name := "Google Calendar"
    description := "Schedule and organize events"
    stars := 1000
    icon := { type := "url"
              url := { light := "/servers/gcal.svg"
                       dark := "/servers/gcal.svg" } }
    category := "Productivity"
    price := "Free"
    developer := "Google LLC" }

/-- The catalog constant `apps` of `data.ts`, in declaration order. -/
def apps : List App :=
  [browser, hackerNews, june, linear, gmail, googleCalendar]

/-- Modelled from the spec: `listAll()` produces the ordered sequence of
AppDescriptors exactly in declaration order. The operation is not in
`src/`; the spec describes it in §4.1. As a pure function it is
deterministic by construction. -/
def listAll (catalog : List App) : List App := catalog

/-- Modelled from the spec: `findByName(name)` returns the unique
AppDescriptor whose `name` matches, or signals NotFound (here `none`).
The operation is not in `src/`; the spec describes it in §4.1. -/
def findByName (catalog : List App) (name : String) : Option App :=
  catalog.find? (fun a => a.name == name)

/-- Modelled from the spec: `requiredEnvVars(name)` returns the ordered
sequence of EnvVarSpec for that app, or an empty sequence if the app
declares none; signals NotFound (`none`) if the app does not exist. The
operation is not in `src/`; the spec describes it in §4.1. -/
def requiredEnvVars (catalog : List App) (name : String) :
    Option (List EnvVarSpec) :=
  (findByName catalog name).map (fun a => a.envVars.getD [])

/-- The load-time error class of the spec (§7). -/
inductive CatalogError where
  | MalformedCatalog
deriving DecidableEq

/-- Boolean no-duplicates check on a list of names. -/
def namesNodup : List String → Bool
  | [] => true
  | x :: xs => !(xs.contains x) && namesNodup xs

/-- Validity of one entry: non-empty required string fields, non-empty icon
paths, and env-var names non-empty and pairwise distinct. -/
def appValid (a : App) : Bool :=
  !a.name.isEmpty &&
  !a.icon.url.light.isEmpty && !a.icon.url.dark.isEmpty &&
  (match a.envVars with
   | none => true
   | some l =>
       l.all (fun v => !v.name.isEmpty) && namesNodup (l.map (·.name)))

/-- Modelled from the spec: the construction/load-time validation contract
of §4.1/§7. It rejects (MalformedCatalog) a catalog where any `name` is
empty or duplicated, where any `EnvVarSpec.name` is empty or duplicated
within its owning app, or where `icon.url.light`/`icon.url.dark` are
empty strings. No validation exists in `src/` (the spec notes this in
§9). -/
def validateCatalog (catalog : List App) : Except CatalogError Unit :=
  if namesNodup (catalog.map (·.name)) && catalog.all appValid then
    .ok ()
  else
    .error .MalformedCatalog

theorem namesNodup_eq_true_iff (l : List String) :
    namesNodup l = true ↔ l.Nodup := by
  induction l with
  | nil => simp [namesNodup]
  | cons x xs ih =>
      simp [namesNodup, List.nodup_cons, ih]

/-- C1: For every pair of distinct AppDescriptors in the catalog, their
`name` fields differ: `name` is a unique identity key across all entries
of the `apps` list. -/
theorem apps_names_unique : (apps.map App.name).Nodup := by
  decide

/-- C2: findByName is inverse-consistent with listAll: for every entry `e`
returned by `listAll()` over the catalog, `findByName e.name` succeeds and
returns an entry equal to `e`. -/
theorem findByName_listAll (e : App) (h : e ∈ listAll apps) :
    findByName apps e.name = some e := by
  fin_cases h <;> rfl

theorem findByName_listAll_witness :
    findByName apps browser.name = some browser :=
  findByName_listAll browser (by decide)

/-- C3: catalog construction validates its input and fails fast: any catalog
containing two entries named "Gmail" is rejected by the load-time
validation with a MalformedCatalog error. -/
theorem validateCatalog_dup_gmail (c : List App)
    (h : 2 ≤ (c.map App.name).count "Gmail") :
    validateCatalog c = .error .MalformedCatalog := by
  have hnd : ¬ (c.map App.name).Nodup := by
    intro hn
    have hle := List.nodup_iff_count_le_one.mp hn "Gmail"
    omega
  have hb : namesNodup (c.map App.name) = false := by
    rw [← Bool.not_eq_true, namesNodup_eq_true_iff]
    exact hnd
  simp [validateCatalog, hb]

theorem validateCatalog_dup_gmail_witness :
    validateCatalog (apps ++ [gmail]) = .error .MalformedCatalog :=
  validateCatalog_dup_gmail (apps ++ [gmail]) (by decide)

/-- C4: `requiredEnvVars "Browser"` returns the empty sequence;
`requiredEnvVars "Linear"` returns exactly one EnvVarSpec, named
LINEAR_API_KEY; `requiredEnvVars "June"` returns exactly two EnvVarSpecs,
named JUNE_API_URL then JUNE_API_KEY, in that declared order. -/
theorem requiredEnvVars_examples :
    requiredEnvVars apps "Browser" = some [] ∧
    requiredEnvVars apps "Linear" =
      some [⟨"LINEAR_API_KEY", "Linear API Key",
             "Your Linear API key for authentication"⟩] ∧
    requiredEnvVars apps "June" =
      some [⟨"JUNE_API_URL", "June API URL", "June API URL"⟩,
            ⟨"JUNE_API_KEY", "June API Key", "June API Key"⟩] :=
  ⟨rfl, rfl, rfl⟩

/-- C5: for every name matching no entry of the catalog, `findByName`
signals NotFound (`none`) rather than returning an entry, and likewise
`requiredEnvVars` signals NotFound. -/
theorem findByName_not_found (n : String) (h : ∀ a ∈ apps, a.name ≠ n) :
    findByName apps n = none ∧ requiredEnvVars apps n = none := by
  have hf : findByName apps n = none := by
    simp only [findByName, List.find?_eq_none]
    intro a ha
    simp [h a ha]
  exact ⟨hf, by simp [requiredEnvVars, hf]⟩

theorem findByName_not_found_witness :
    findByName apps "__nonexistent__" = none ∧
    requiredEnvVars apps "__nonexistent__" = none :=
  findByName_not_found "__nonexistent__" (by decide)

/-- C6: for every entry in the catalog, the fields `name`, `description`,
`developer`, `category`, `price` are non-empty strings. -/
theorem apps_required_fields_nonempty (a : App) (h : a ∈ apps) :
    a.name ≠ "" ∧ a.description ≠ "" ∧ a.developer ≠ "" ∧
    a.category ≠ "" ∧ a.price ≠ "" := by
  fin_cases h <;> refine ⟨?_, ?_, ?_, ?_, ?_⟩ <;> decide

theorem apps_required_fields_nonempty_witness :
    browser.name ≠ "" ∧ browser.description ≠ "" ∧ browser.developer ≠ "" ∧
    browser.category ≠ "" ∧ browser.price ≠ "" :=
  apps_required_fields_nonempty browser (by decide)

/-- C7: for every entry in the catalog that has an `envVars` field, that
sequence is non-empty, and within it no two EnvVarSpecs share a `name`. -/
theorem apps_envVars_nonempty_nodup (a : App) (h : a ∈ apps)
    (l : List EnvVarSpec) (hl : a.envVars = some l) :
    l ≠ [] ∧ (l.map EnvVarSpec.name).Nodup := by
  fin_cases h <;>
    simp only [browser, hackerNews, june, linear, gmail, googleCalendar,
      Option.some.injEq, reduceCtorEq] at hl
  · subst hl
    exact ⟨by decide, by decide⟩
  · subst hl
    exact ⟨by decide, by decide⟩

theorem apps_envVars_nonempty_nodup_witness :
    ([⟨"JUNE_API_URL", "June API URL", "June API URL"⟩,
      ⟨"JUNE_API_KEY", "June API Key", "June API Key"⟩] :
        List EnvVarSpec) ≠ [] ∧
    (([⟨"JUNE_API_URL", "June API URL", "June API URL"⟩,
       ⟨"JUNE_API_KEY", "June API Key", "June API Key"⟩] :
        List EnvVarSpec).map EnvVarSpec.name).Nodup :=
  apps_envVars_nonempty_nodup june (by decide) _ rfl

/-- C8: `listAll` is order-faithful: it yields the catalog's entries exactly
in their declaration order in `data.ts`. As a pure function of the
immutable constant `apps`, every call yields this same sequence
(determinism). -/
theorem listAll_declaration_order :
    listAll apps = [browser, hackerNews, june, linear, gmail, googleCalendar] :=
  rfl

/-- C9: the catalog contains exactly six AppDescriptors, in the fixed order
Browser, Hacker News, June, Linear, Gmail, Google Calendar; of these,
exactly June and Linear declare an `envVars` field and the other four omit
it. -/
theorem apps_exactly_six :
    apps.length = 6 ∧
    apps.map App.name =
      ["Browser", "Hacker News", "June", "Linear", "Gmail",
       "Google Calendar"] ∧
    apps.map (fun a => a.envVars.isSome) =
      [false, false, true, true, false, false] :=
  ⟨rfl, rfl, rfl⟩

/-- C10: every entry's icon has discriminator `type = "url"` and non-empty
light/dark paths; every entry except Linear has identical light and dark
paths, while Linear pairs light with "/servers/linear-dark.svg" and dark
with "/servers/linear-light.svg". -/
theorem apps_icon_invariant (a : App) (h : a ∈ apps) :
    a.icon.type = "url" ∧ a.icon.url.light ≠ "" ∧ a.icon.url.dark ≠ "" ∧
    ((a.name = "Linear" ∧ a.icon.url.light = "/servers/linear-dark.svg" ∧
        a.icon.url.dark = "/servers/linear-light.svg") ∨
      (a.name ≠ "Linear" ∧ a.icon.url.light = a.icon.url.dark)) := by
  fin_cases h <;> decide

theorem apps_icon_invariant_witness :
    linear.icon.type = "url" ∧ linear.icon.url.light ≠ "" ∧
    linear.icon.url.dark ≠ "" ∧
    ((linear.name = "Linear" ∧
        linear.icon.url.light = "/servers/linear-dark.svg" ∧
        linear.icon.url.dark = "/servers/linear-light.svg") ∨
      (linear.name ≠ "Linear" ∧ linear.icon.url.light = linear.icon.url.dark)) :=
  apps_icon_invariant linear (by decide)
